import Mathlib

/-
Formal verification of the prediction verification and scoring pipeline of the
`outcomely` repository, embedded shallowly from the Python sources:

  * src/market_data.py   : `parse_timeframe`, `get_market_outcome`
  * src/accuracy_scorer.py : `calculate_base_score`, `verify_with_gemini`,
                             `verify_prediction`, the loop body of
                             `verify_unverified_predictions`
  * src/database.py      : `add_verification`, `recalculate_creator_scores`
  * src/config.py        : `SCORING_WEIGHTS`

Embedding conventions:

* Python floats are modelled as exact rationals (ℚ).  `round(x, n)` is
  modelled as exact round-half-to-even at `n` decimal places (CPython's
  documented rounding mode); binary floating-point representation error is
  abstracted away.
* `datetime` values are modelled as proleptic-Gregorian calendar dates
  (`SDate`) together with their `toordinal` day number; time-of-day is
  abstracted, so `datetime.now()` becomes a date parameter `now` and the
  strict comparison `end > now` is taken at day granularity.  Dates travel
  between functions as `SDate` values rather than as their "YYYY-MM-DD"
  renderings (the rendering/parsing round trip is the identity for the
  dates involved).
* The regular expressions of `parse_timeframe` and the target-price
  stripping (`re.sub(r'[^\d.]', '', ...)`) are implemented character by
  character with Python `re` semantics (leftmost match, greedy quantifiers
  with backtracking), specialised to ASCII input.
* External collaborators (nselib price fetch, Exa search, the Gemini model
  call together with its JSON parsing, SQLite) are oracles passed in as
  parameters; each outbound call is recorded in an effect trace `List Eff`.
  A Gemini oracle value `none` covers both a raised exception and an
  unparsable (non-JSON) response, since both land in the same `except`
  handler of `verify_with_gemini`.
* Dictionary fields that Python reads with `dict.get` are modelled with
  `Option` / `PyVal` (`PyVal` distinguishes an absent key from a key whose
  value is `None`, which `dict.get` with a default treats differently).
-/

/-! ### Calendar dates (Python `datetime.date` / `datetime.datetime`) -/

/-- A proleptic-Gregorian calendar date, mirroring Python `datetime.date`. -/
structure SDate where
  y : Nat
  m : Nat
  d : Nat
  deriving DecidableEq

/-- Gregorian leap-year test. -/
def isLeap (y : Nat) : Bool :=
  (y % 4 == 0 && y % 100 != 0) || (y % 400 == 0)

/-- Month lengths of year `y`, January first. -/
def monthLengths (y : Nat) : List Nat :=
  [31, if isLeap y then 29 else 28, 31, 30, 31, 30, 31, 31, 30, 31, 30, 31]

/-- Days in the years strictly before year `y` (proleptic Gregorian). -/
def daysBeforeYear (y : Nat) : Nat :=
  365 * (y - 1) + (y - 1) / 4 - (y - 1) / 100 + (y - 1) / 400

/-- Days in year `y` strictly before month `m`. -/
def daysBeforeMonth (y m : Nat) : Nat :=
  ((monthLengths y).take (m - 1)).sum

/-- Python `date.toordinal`: day number with 0001-01-01 ↦ 1. -/
def toOrdinal (dt : SDate) : Nat :=
  daysBeforeYear dt.y + daysBeforeMonth dt.y dt.m + dt.d

/-- Locate the month containing 1-based day-of-year `doy`. -/
def findMonth : List Nat → Nat → Nat → Nat × Nat
  | [], m, doy => (m, doy)
  | len :: rest, m, doy =>
      if doy ≤ len then (m, doy) else findMonth rest (m + 1) (doy - len)

/-- Python `date.fromordinal` (inverse of `toOrdinal`), via the standard
400/100/4/1-year cycle decomposition. -/
def fromOrdinal (n : Nat) : SDate :=
  let n0 := n - 1
  let q400 := n0 / 146097
  let r1 := n0 % 146097
  let q100 := min (r1 / 36524) 3
  let r2 := r1 - q100 * 36524
  let q4 := r2 / 1461
  let r3 := r2 % 1461
  let q1 := min (r3 / 365) 3
  let r4 := r3 - q1 * 365
  let y := 400 * q400 + 100 * q100 + 4 * q4 + q1 + 1
  let md := findMonth (monthLengths y) 1 (r4 + 1)
  ⟨y, md.1, md.2⟩

/-- Python `date + timedelta(days=k)`. -/
def addDays (dt : SDate) (k : Nat) : SDate :=
  fromOrdinal (toOrdinal dt + k)

/-- Value of `datetime.max.toordinal()`: the last ordinal `datetime` can represent
(9999-12-31); additions past it raise `OverflowError` in Python. -/
def maxOrdinal : Nat := 3652059

/-! ### Python-style numeric helpers -/

/-- Round-half-to-even to an integer (CPython `round` semantics on exact
values). -/
def roundHalfEven (q : ℚ) : ℤ :=
  let f := ⌊q⌋
  let r := q - (f : ℚ)
  if r < 1/2 then f
  else if 1/2 < r then f + 1
  else if f % 2 = 0 then f else f + 1

/-- Python `round(q, k)` for `k` decimal places, on exact rationals. -/
def roundTo (k : Nat) (q : ℚ) : ℚ :=
  (roundHalfEven (q * (10 : ℚ) ^ k) : ℚ) / (10 : ℚ) ^ k

/-- A value read out of a Python dict slot: the key may be absent, may hold
`None`, or may hold a number. -/
inductive PyVal where
  | absent
  | null
  | num (q : ℚ)
  deriving DecidableEq

/-- Python `d.get(key, default)` for a numeric default: an absent key yields
the default, a present key yields its value (`None` stays `None`). -/
def pyGet (v : PyVal) (default : ℚ) : Option ℚ :=
  match v with
  | .absent => some default
  | .null => none
  | .num q => some q

/-- Python truthiness of a possibly-`None` number: `None` and `0` are falsy. -/
def truthyQ (v : Option ℚ) : Bool :=
  match v with
  | none => false
  | some q => q ≠ 0

/-- Python truthiness of an optional string: `None` and `""` are falsy. -/
def truthyStr (s : Option String) : Bool :=
  match s with
  | none => false
  | some t => t ≠ ""

/-- Python `x or d` for a possibly-`NULL` SQL aggregate (`None` and `0` both
fall back to `d`). -/
def pyOrQ (x : Option ℚ) (d : ℚ) : ℚ :=
  match x with
  | none => d
  | some v => if v = 0 then d else v

/-! ### Target-price parsing: `float(re.sub(r'[^\d.]', '', str(target)))` -/

/-- Python `re.sub(r'[^\d.]', '', s)`: keep only (ASCII) digits and dots. -/
def stripNonNum (s : String) : List Char :=
  s.toList.filter (fun c => c.isDigit || c = '.')

/-- Numeric value of a digit string. -/
def digitsToNat (l : List Char) : Nat :=
  l.foldl (fun a c => a * 10 + (c.toNat - 48)) 0

/-- Python `float` applied to a string of digits and dots: at most one dot
and at least one digit, decimal value; otherwise a `ValueError` (`none`). -/
def pyFloatOfStripped (l : List Char) : Option ℚ :=
  match l.splitOn '.' with
  | [ds] => if ds.isEmpty then none else some (digitsToNat ds : ℚ)
  | [a, b] =>
      if (a ++ b).isEmpty then none
      else some ((digitsToNat (a ++ b) : ℚ) / (10 : ℚ) ^ b.length)
  | _ => none

/-- The repository's target-price parse, `float(re.sub(r'[^\d.]', '', str(t)))`,
shared verbatim by `get_market_outcome` and `calculate_base_score`;
`none` models the raised `ValueError`. -/
def parseTargetNum (t : String) : Option ℚ :=
  pyFloatOfStripped (stripNonNum t)

/-! ### Character classes for the `re` patterns of `parse_timeframe` -/

/-- Python regex `\w` (ASCII portion: letters, digits, underscore). -/
def isWordC (c : Char) : Bool :=
  c.isAlphanum || c = '_'

/-- Python regex `\s` (ASCII portion). -/
def isSpaceC (c : Char) : Bool :=
  c = ' ' || c = '\t' || c = '\n' || c = '\r' || c = '\x0b' || c = '\x0c'

/-- Python substring test `pat in s`. -/
def hasSubstrL (pat : List Char) : List Char → Bool
  | [] => pat.isEmpty
  | c :: rest => pat.isPrefixOf (c :: rest) || hasSubstrL pat rest

/-- Read `\d{4}` at the head of the input (the year group of the month-year
pattern); anything may follow. -/
def d4At (cs : List Char) : Option Nat :=
  match cs with
  | a :: b :: c :: d :: _ =>
      if a.isDigit && b.isDigit && c.isDigit && d.isDigit then
        some (digitsToNat [a, b, c, d])
      else none
  | _ => none

/-- Match `\s*(\d{4})` at the head of the input (greedy `\s*`; a space is
never a digit, so no backtracking arises). -/
def matchSD : List Char → Option Nat
  | [] => none
  | c :: rest => if isSpaceC c then matchSD rest else d4At (c :: rest)

/-- Match `\w*\s*(\d{4})` at the head of the input with Python's greedy
backtracking: prefer consuming a word character into `\w*`, and only on
failure of the longer attempt stop `\w*` here (this reproduces, e.g., that
"dec20233" yields year 0233, not 2023). -/
def matchWSD : List Char → Option Nat
  | [] => none
  | c :: rest =>
      if isWordC c then
        match matchWSD rest with
        | some y => some y
        | none => matchSD (c :: rest)
      else matchSD (c :: rest)

/-- The twelve month-abbreviation alternatives of
`(jan|feb|mar|apr|may|jun|jul|aug|sep|oct|nov|dec)`, with the month numbers
`month_map` assigns to them. -/
def monthTable : List (List Char × Nat) :=
  [("jan".toList, 1), ("feb".toList, 2), ("mar".toList, 3), ("apr".toList, 4),
   ("may".toList, 5), ("jun".toList, 6), ("jul".toList, 7), ("aug".toList, 8),
   ("sep".toList, 9), ("oct".toList, 10), ("nov".toList, 11), ("dec".toList, 12)]

/-- Try the month-year pattern anchored at the current position: one of the
twelve three-letter alternatives (they are pairwise distinct, so alternation
order is immaterial) followed by `\w*\s*(\d{4})`. -/
def tryMonthYearAt (table : List (List Char × Nat)) (cs : List Char) :
    Option (Nat × Nat) :=
  match table with
  | [] => none
  | (abbr, mnum) :: rest =>
      if abbr.isPrefixOf cs then
        match matchWSD (cs.drop 3) with
        | some y => some (mnum, y)
        | none => tryMonthYearAt rest cs
      else tryMonthYearAt rest cs

/-- Python `re.search` of the month-year pattern: leftmost position wins; returns
`(month number, year)` of the match. -/
def searchMonthYear : List Char → Option (Nat × Nat)
  | [] => none
  | c :: rest =>
      match tryMonthYearAt monthTable (c :: rest) with
      | some r => some r
      | none => searchMonthYear rest

/-- Try `\b(20[2-3]\d)\b` anchored at the current position; `prevIsWord`
says whether the preceding character (if any) is a word character. -/
def yearTokenAt (prevIsWord : Bool) (cs : List Char) : Option Nat :=
  match cs with
  | '2' :: '0' :: c :: d :: rest =>
      if !prevIsWord && (c = '2' || c = '3') && d.isDigit
          && (match rest with | [] => true | r :: _ => !isWordC r) then
        some (2000 + (c.toNat - 48) * 10 + (d.toNat - 48))
      else none
  | _ => none

/-- Leftmost `re.search` of `\b(20[2-3]\d)\b`, threading the previous
character's word-ness for the left boundary. -/
def searchYearGo (prevIsWord : Bool) : List Char → Option Nat
  | [] => none
  | c :: rest =>
      match yearTokenAt prevIsWord (c :: rest) with
      | some y => some y
      | none => searchYearGo (isWordC c) rest

/-- Python `re.search(r'\b(20[2-3]\d)\b', s)`. -/
def searchYearToken (cs : List Char) : Option Nat :=
  searchYearGo false cs

/-- Try `(\d+)\s*unit` anchored at the current position: a maximal digit run
(greedy `\d+`; shorter runs can never help because a digit is neither a
space nor the first letter of the unit), then `\s*`, then the literal unit. -/
def matchNumUnitAt (unit : List Char) (cs : List Char) : Option Nat :=
  let ds := cs.takeWhile Char.isDigit
  let rest := cs.dropWhile Char.isDigit
  if ds.isEmpty then none
  else if unit.isPrefixOf (rest.dropWhile isSpaceC) then some (digitsToNat ds)
  else none

/-- Leftmost `re.search(r'(\d+)\s*unit', s)` (used with `month` and `year`). -/
def searchNumUnit (unit : List Char) : List Char → Option Nat
  | [] => none
  | c :: rest =>
      match matchNumUnitAt unit (c :: rest) with
      | some n => some n
      | none => searchNumUnit unit rest

/-! ### `parse_timeframe` (src/market_data.py, lines 255-321) -/

/-- A relative window `[ref, ref + days]`; `none` models the `OverflowError`
raised when the addition leaves `datetime`'s range (caught further up by
`get_market_outcome`). -/
def relWindow (ref : SDate) (days : Nat) : Option (SDate × SDate) :=
  if toOrdinal ref + days > maxOrdinal then none
  else some (ref, addDays ref days)

/-- Body of `parse_timeframe` on the lowercased, stripped character list.
`none` models a raised exception (`ValueError` from `datetime(0, ...)` or
`datetime(10000, ...)`, `OverflowError` from a huge `timedelta`), which
`get_market_outcome` maps to an `error` outcome. -/
def parseTimeframeCore (cs : List Char) (ref : SDate) : Option (SDate × SDate) :=
  match searchMonthYear cs with
  | some (month, year) =>
      if year = 0 then none
      else if month = 12 then
        if year = 9999 then none
        else some (⟨year, 12, 1⟩, fromOrdinal (toOrdinal ⟨year + 1, 1, 1⟩ - 1))
      else some (⟨year, month, 1⟩, fromOrdinal (toOrdinal ⟨year, month + 1, 1⟩ - 1))
  | none =>
  match searchYearToken cs with
  | some year =>
      if hasSubstrL "end".toList cs then some (⟨year, 10, 1⟩, ⟨year, 12, 31⟩)
      else some (⟨year, 1, 1⟩, ⟨year, 12, 31⟩)
  | none =>
  if hasSubstrL "month".toList cs then
    relWindow ref ((searchNumUnit "month".toList cs).getD 6 * 30)
  else if hasSubstrL "year".toList cs then
    relWindow ref ((searchNumUnit "year".toList cs).getD 1 * 365)
  else relWindow ref 180

/-- Python `s.lower().strip()` on the character list (ASCII lowering;
stripping the whitespace characters of `\s`). -/
def pyLowerStrip (s : String) : List Char :=
  (((s.toList.map Char.toLower).dropWhile isSpaceC).reverse.dropWhile
    isSpaceC).reverse

/-- Function `parse_timeframe(timeframe, reference_date)`: the reference date is taken
as an already-parsed `SDate` (the Python code receives it as a "YYYY-MM-DD"
string and `strptime`s it), and the returned window is the pair of dates the
Python code renders with `strftime("%Y-%m-%d")`. -/
def parse_timeframe (timeframe : String) (referenceDate : SDate) :
    Option (SDate × SDate) :=
  parseTimeframeCore (pyLowerStrip timeframe) referenceDate

/-! ### Effects and external collaborators -/

/-- Outbound calls the pipeline can make, recorded in order. -/
inductive Eff where
  | fetchPrices (asset : String) (startDate endDate : SDate)
  | exaSearch
  | geminiCall
  | dbAddVerification (predictionId : Nat)
  deriving DecidableEq

/-- The dictionary `get_price_range` returns (src/market_data.py, lines
219-252): close-price statistics over the window; each field may be `None`.
The `start_date`/`end_date` echo fields are not read downstream and are
omitted. -/
structure PriceRange where
  start_price : Option ℚ
  end_price : Option ℚ
  high : Option ℚ
  low : Option ℚ
  deriving DecidableEq

/-- The price-data oracle: `get_price_range(asset, start, end)`; `none` is
"no data". -/
def PriceOracle := String → SDate → SDate → Option PriceRange

/-! ### `get_market_outcome` (src/market_data.py, lines 324-408) -/

/-- The outcome dictionary built by `get_market_outcome`.  Price fields use
`PyVal` because the initial dictionary does not contain their keys at all
(`.absent`), while the verified branch inserts them with possibly-`None`
values; `calculate_base_score` reads them with `dict.get` defaults that
distinguish the two.  `actual_direction` is always a string when present
(the verified branch writes one of the three labels); `none` covers the
initial `None` as well as key absence, which coincide for every dictionary
this function returns. -/
structure MarketOutcome where
  asset : String
  prediction_direction : String
  prediction_target : Option String
  timeframe : String
  data_source : String
  outcome : Option String
  actual_direction : Option String
  actual_price_change : Option ℚ
  target_reached : Option Bool
  start_price : PyVal
  end_price : PyVal
  period_high : PyVal
  period_low : PyVal
  note : Option String
  errorMsg : Option String
  deriving DecidableEq

/-- The initial result dictionary of `get_market_outcome` (lines 344-354). -/
def initialOutcome (asset direction : String) (target : Option String)
    (timeframe : String) : MarketOutcome :=
  { asset := asset
    prediction_direction := direction
    prediction_target := target
    timeframe := timeframe
    data_source := "unknown"
    outcome := none
    actual_direction := none
    actual_price_change := none
    target_reached := none
    start_price := .absent
    end_price := .absent
    period_high := .absent
    period_low := .absent
    note := none
    errorMsg := none }

/-- Function `get_market_outcome(asset, direction, target, timeframe, prediction_date)`
with the price fetch as an oracle and `datetime.now()` as the date `now`.
Returns the outcome dictionary together with the trace of outbound calls. -/
def get_market_outcome (fetch : PriceOracle) (now : SDate)
    (asset direction : String) (target : Option String)
    (timeframe : String) (predictionDate : SDate) :
    MarketOutcome × List Eff :=
  let base := initialOutcome asset direction target timeframe
  match parse_timeframe timeframe predictionDate with
  | none =>
      -- any exception inside the try block is caught: outcome = 'error'
      ({ base with outcome := some "error", errorMsg := some "exception" }, [])
  | some (startDate, endDate) =>
      if toOrdinal now < toOrdinal endDate then
        -- strptime(end_date) > datetime.now(): pending, no fetch attempted
        ({ base with outcome := some "pending",
                     note := some "Prediction timeframe has not completed yet" }, [])
      else
        let fetched := fetch asset startDate endDate
        let effs := [Eff.fetchPrices asset startDate endDate]
        match fetched with
        | none =>
            ({ base with outcome := some "no_data",
                         note := some "Could not fetch market data for this asset" },
             effs)
        | some pr =>
            if truthyQ pr.start_price && truthyQ pr.end_price then
              let sp := pr.start_price.getD 0
              let ep := pr.end_price.getD 0
              let changePct := (ep - sp) / sp * 100
              let adir :=
                if 5 < changePct then "bullish"
                else if changePct < -5 then "bearish"
                else "neutral"
              let tr : Option Bool :=
                if truthyStr target then
                  match parseTargetNum (target.getD "") with
                  | none => none      -- float() raised; except sets None
                  | some tp =>
                      -- comparison with a None high/low raises TypeError,
                      -- which the same except handler maps to None
                      if direction = "bullish" then
                        pr.high.map (fun h => decide (tp ≤ h))
                      else
                        pr.low.map (fun l => decide (l ≤ tp))
                else none
              ({ base with
                   outcome := some "verified"
                   data_source := "nselib"
                   start_price := .num sp
                   end_price := .num ep
                   period_high := match pr.high with
                                  | none => .null
                                  | some h => .num h
                   period_low := match pr.low with
                                 | none => .null
                                 | some l => .num l
                   actual_price_change := some (roundTo 2 changePct)
                   actual_direction := some adir
                   target_reached := tr }, effs)
            else
              ({ base with outcome := some "no_data",
                           note := some "Could not fetch market data for this asset" },
               effs)

/-! ### `calculate_base_score` (src/accuracy_scorer.py, lines 64-140) -/

/-- The score dictionary `calculate_base_score` returns. -/
structure BaseScores where
  direction_correct : Bool
  direction_score : ℚ
  target_score : ℚ
  timing_score : ℚ
  overall_score : ℚ
  deriving DecidableEq

/-- Direction scoring (lines 93-102): exact match 1.0, directional call
against a flat market 0.3, otherwise 0.0. -/
def directionScorePair (direction actual : String) : Bool × ℚ :=
  if direction = actual then (true, 1)
  else if (direction = "bullish" || direction = "bearish") && actual = "neutral" then
    (false, 3/10)
  else (false, 0)

/-- Target scoring (lines 104-127).  The `try` block's exceptions —
`ValueError` from the float parse and `ZeroDivisionError` from
`high_price / target_price` — land in the `except` that sets 0.5; the
bearish branch guards its division with `if low_price`.  When neither the
bullish-with-truthy-high branch nor the bearish branch assigns, the score
keeps its initial 0.0. -/
def targetScoreOf (mo : MarketOutcome) (direction : String)
    (target : Option String) : ℚ :=
  if truthyStr target && mo.target_reached ≠ none then
    if mo.target_reached = some true then 1
    else
      match parseTargetNum (target.getD "") with
      | none => 1/2
      | some targetPrice =>
          let endPrice := pyGet mo.end_price 0
          let highPrice := pyGet mo.period_high 0
          if direction = "bullish" && truthyQ highPrice then
            if targetPrice = 0 then 1/2  -- ZeroDivisionError → except → 0.5
            else min (highPrice.getD 0 / targetPrice) 1 * (7/10)
          else if direction = "bearish" then
            let lowPrice : Option ℚ :=
              match mo.period_low with
              | .absent => endPrice        -- .get('period_low', end_price)
              | .null => none
              | .num q => some q
            (match lowPrice with
             | none => (0 : ℚ)
             | some lv => if lv = 0 then 0 else min (targetPrice / lv) 1) * (7/10)
          else 0
  else if truthyStr target then 0  -- target given but target_reached is None
  else 1/2                          -- no target: neutral score

/-- Weight `SCORING_WEIGHTS["direction"]` (src/config.py, line 126). -/
def weightDirection : ℚ := 40/100

/-- Weight `SCORING_WEIGHTS["target"]` (src/config.py, line 127). -/
def weightTarget : ℚ := 40/100

/-- Weight `SCORING_WEIGHTS["timing"]` (src/config.py, line 128). -/
def weightTiming : ℚ := 20/100

/-- Function `calculate_base_score(market_outcome, direction, target)`: pure scoring
with the fixed `SCORING_WEIGHTS` 0.40 / 0.40 / 0.20 (src/config.py,
lines 125-129). -/
def calculate_base_score (mo : MarketOutcome) (direction : String)
    (target : Option String) : BaseScores :=
  if mo.outcome ≠ some "verified" then
    ⟨false, 0, 0, 0, 0⟩
  else
    let actual := mo.actual_direction.getD "neutral"
    let dpair := directionScorePair direction actual
    let ts := targetScoreOf mo direction target
    let tis : ℚ := 4/5
    ⟨dpair.1, dpair.2, ts, tis,
     dpair.2 * weightDirection + ts * weightTarget + tis * weightTiming⟩

/-! ### `verify_with_gemini` (src/accuracy_scorer.py, lines 143-227) -/

/-- The dictionary shape `verify_with_gemini` returns: either the parsed
JSON object from the model (whose fields may individually be missing) or
the deterministic fallback built from `calculate_base_score`.  Fields are
typed as the prompt requests them; a response field of a different runtime
type is outside the model (a non-numeric accuracy would make the later
`float(...)` cast raise). -/
structure GeminiResp where
  direction_correct : Option Bool
  target_accuracy : Option ℚ
  timing_accuracy : Option ℚ
  overall_explanation : Option String
  deriving DecidableEq

/-- The fallback dictionary (lines 169-177 and 218-227): Base Scorer numbers
with an explanation noting AI judgment was unavailable. -/
def geminiFallback (mo : MarketOutcome) (direction : String)
    (target : Option String) (explanation : String) : GeminiResp :=
  let baseScores := calculate_base_score mo direction target
  { direction_correct := some baseScores.direction_correct
    target_accuracy := some baseScores.target_score
    timing_accuracy := some baseScores.timing_score
    overall_explanation := some explanation }

/-- The Exa search-context dictionary; only threaded into the prompt text. -/
structure SearchResults where
  summaries : List String
  sources : List String
  deriving DecidableEq

/-- Function `verify_with_gemini`: `geminiKeyConfigured` models `GEMINI_API_KEY` being
set; `geminiResp` is the oracle for the model call, where `none` covers a
raised call error and a response `json.loads` cannot parse (both reach the
same `except` handler).  The prompt-only arguments (statement, asset,
timeframe, prediction date, search results) do not influence which branch
runs. -/
def verify_with_gemini (geminiKeyConfigured : Bool)
    (geminiResp : Option GeminiResp)
    (statement asset : String) (direction : String) (target : Option String)
    (timeframe : String) (predictionDate : SDate)
    (mo : MarketOutcome) (searchResults : Option SearchResults) :
    GeminiResp × List Eff :=
  if !geminiKeyConfigured then
    (geminiFallback mo direction target
      "Verified using market data only (no AI analysis)", [])
  else
    match geminiResp with
    | some r => (r, [Eff.geminiCall])
    | none =>
        (geminiFallback mo direction target
          "Verified using market data only (AI error)", [Eff.geminiCall])

/-! ### `verify_prediction` (src/accuracy_scorer.py, lines 230-302) -/

/-- A prediction row as `verify_prediction` consumes it.  `publish_date` is
the already-sliced, already-parsed reference date (the Python code passes
`prediction.get('publish_date', ...)[:10]` as a string). -/
structure PredInput where
  id : Nat
  statement : String
  asset : String
  direction : String
  target : Option String
  timeframe : String
  publish_date : SDate
  deriving DecidableEq

/-- The two dictionary shapes `verify_prediction` returns. -/
inductive VerifyResult where
  | pending (message : String)
  | verified (direction_correct : Bool) (target_accuracy timing_accuracy : ℚ)
      (overall_score : ℚ) (explanation : String) (market_outcome : MarketOutcome)
      (data_source : String)
  deriving DecidableEq

/-- Status string of a `verify_prediction` result. -/
def VerifyResult.status : VerifyResult → String
  | .pending _ => "pending"
  | .verified _ _ _ _ _ _ _ => "verified"

/-- Overall score of a verified result. -/
def VerifyResult.overallScore : VerifyResult → Option ℚ
  | .pending _ => none
  | .verified _ _ _ ov _ _ _ => some ov

/-- Target accuracy of a verified result. -/
def VerifyResult.targetAccuracy : VerifyResult → Option ℚ
  | .pending _ => none
  | .verified _ ta _ _ _ _ _ => some ta

/-- Timing accuracy of a verified result. -/
def VerifyResult.timingAccuracy : VerifyResult → Option ℚ
  | .pending _ => none
  | .verified _ _ ti _ _ _ _ => some ti

/-- Direction-correct flag of a verified result. -/
def VerifyResult.directionCorrect : VerifyResult → Option Bool
  | .pending _ => none
  | .verified dc _ _ _ _ _ _ => some dc

/-- The final scoring step of `verify_prediction` (lines 282-302): collapse
the verifier dictionary's `direction_correct` through Python truthiness
(`None` and `false` both give 0.0), default a missing `target_accuracy` or
`timing_accuracy` to 0.5, recombine with the fixed weights, and round the
overall score to three decimals. -/
def scoreFromGemini (g : GeminiResp) (mo : MarketOutcome) : VerifyResult :=
  let directionScore : ℚ :=
    match g.direction_correct with
    | some true => 1
    | _ => 0
  let targetScore := g.target_accuracy.getD (1/2)
  let timingScore := g.timing_accuracy.getD (1/2)
  let overallScore :=
    roundTo 3 (directionScore * weightDirection + targetScore * weightTarget
      + timingScore * weightTiming)
  .verified (g.direction_correct.getD false) targetScore timingScore
    overallScore (g.overall_explanation.getD "") mo mo.data_source

/-- Function `verify_prediction(prediction)` with all collaborators as oracles:
resolve the outcome, short-circuit on pending, optionally gather Exa
context for `no_data`/`error`, call the semantic verifier, and score its
dictionary. -/
def verify_prediction (fetch : PriceOracle) (exa : Option SearchResults)
    (geminiKeyConfigured : Bool) (geminiResp : Option GeminiResp)
    (now : SDate) (p : PredInput) : VerifyResult × List Eff :=
  let moEff := get_market_outcome fetch now p.asset p.direction p.target
    p.timeframe p.publish_date
  let mo := moEff.1
  if mo.outcome = some "pending" then
    (.pending "Prediction timeframe has not completed yet", moEff.2)
  else
    let searchEff : Option SearchResults × List Eff :=
      if mo.outcome = some "no_data" || mo.outcome = some "error" then
        (exa, [Eff.exaSearch])
      else (none, [])
    let gEff := verify_with_gemini geminiKeyConfigured geminiResp
      p.statement p.asset p.direction p.target p.timeframe p.publish_date
      mo searchEff.1
    (scoreFromGemini gEff.1 mo, moEff.2 ++ searchEff.2 ++ gEff.2)

/-! ### Database model (src/database.py) -/

/-- A row of the `verifications` table.  The `actual_outcome` column stores
`json.dumps` of the outcome dictionary; it is modelled as the dictionary
value itself. -/
structure VerifRow where
  id : Nat
  prediction_id : Nat
  actual_outcome : MarketOutcome
  direction_correct : Bool
  target_accuracy : ℚ
  timing_accuracy : ℚ
  overall_score : ℚ
  explanation : String
  market_data_source : String
  deriving DecidableEq

/-- A row of the `predictions` table (the text columns not read by the
modelled operations are carried inside `Pred` where needed). -/
structure PredRow where
  id : Nat
  video_id : Nat
  verified : Bool
  deriving DecidableEq

/-- A row of the `videos` table (columns relevant to the creator join). -/
structure VideoRow where
  id : Nat
  creator_id : Nat
  deriving DecidableEq

/-- A row of the `creators` table.  `accuracy_score` is a nullable `REAL`
column with default 0.0; `none` models SQL `NULL`. -/
structure CreatorRow where
  id : Nat
  total_predictions : Nat
  accuracy_score : Option ℚ
  deriving DecidableEq

/-- The SQLite database state.  Primary keys (`id` columns) are assumed
unique, as SQLite enforces; `nextVerifId` models the `AUTOINCREMENT`
rowid counter of `verifications`. -/
structure DBState where
  creators : List CreatorRow
  videos : List VideoRow
  predictions : List PredRow
  verifications : List VerifRow
  nextVerifId : Nat
  deriving DecidableEq

/-- Function `mark_prediction_verified` (lines 307-313). -/
def mark_prediction_verified (s : DBState) (predictionId : Nat) : DBState :=
  let upd := fun (p : PredRow) =>
    if p.id = predictionId then { p with verified := true } else p
  { s with predictions := s.predictions.map upd }

/-- Function `add_verification` (lines 334-355): `INSERT OR REPLACE` into a table
whose `prediction_id` column is `UNIQUE`, so a conflicting row is deleted
and the new row inserted with a fresh rowid; the prediction is then marked
verified. -/
def add_verification (s : DBState) (predictionId : Nat)
    (actualOutcome : MarketOutcome) (directionCorrect : Bool)
    (targetAccuracy timingAccuracy overallScore : ℚ)
    (explanation marketDataSource : String) : DBState :=
  let newRow : VerifRow :=
    ⟨s.nextVerifId, predictionId, actualOutcome, directionCorrect,
     targetAccuracy, timingAccuracy, overallScore, explanation,
     marketDataSource⟩
  let kept := s.verifications.filter (fun r => r.prediction_id ≠ predictionId)
  let inserted :=
    { s with verifications := kept ++ [newRow], nextVerifId := s.nextVerifId + 1 }
  mark_prediction_verified inserted predictionId

/-- The verification rows of creator `creatorId`: the SQL join
`predictions p JOIN videos v ON p.video_id = v.id JOIN verifications ver ON
p.id = ver.prediction_id WHERE v.creator_id = ?` of
`recalculate_creator_scores` (lines 387-393), with primary keys unique. -/
def creatorVerifications (s : DBState) (creatorId : Nat) : List VerifRow :=
  s.verifications.filter (fun ver =>
    ((s.predictions.find? (fun p => p.id = ver.prediction_id)).bind
      (fun p => (s.videos.find? (fun v => v.id = p.video_id)).map
        (fun v => v.creator_id))) = some creatorId)

/-- The updated row `recalculate_creator_scores` writes for one creator:
`COUNT(*)` and `AVG(overall_score)` over the join (the SQL `AVG` of an
empty set is `NULL`), both passed through Python's `or 0` / `or 0.0`. -/
def recalcCreatorRow (s : DBState) (c : CreatorRow) : CreatorRow :=
  let rows := creatorVerifications s c.id
  let avgScore : Option ℚ :=
    if rows.isEmpty then none
    else some ((rows.map (fun r => r.overall_score)).sum / rows.length)
  { c with total_predictions := rows.length,
           accuracy_score := some (pyOrQ avgScore 0) }

/-- Function `recalculate_creator_scores` (lines 374-406): one pass updating every
creator's `total_predictions` and `accuracy_score`. -/
def recalculate_creator_scores (s : DBState) : DBState :=
  { s with creators := s.creators.map (recalcCreatorRow s) }

/-! ### Loop body of `verify_unverified_predictions`
(src/accuracy_scorer.py, lines 330-363) -/

/-- The summary counters the batch runner accumulates. -/
structure BatchCounts where
  verified : Nat
  pending : Nat
  errors : Nat
  deriving DecidableEq

/-- One iteration of the batch loop over an unverified prediction: verify
it, and on status `verified` persist via `add_verification` (recording the
persistence call in the trace); on `pending` only count it. -/
def processOne (fetch : PriceOracle) (exa : Option SearchResults)
    (geminiKeyConfigured : Bool) (geminiResp : Option GeminiResp)
    (now : SDate) (p : PredInput) (db : DBState) (counts : BatchCounts) :
    DBState × BatchCounts × List Eff :=
  let vEff := verify_prediction fetch exa geminiKeyConfigured geminiResp now p
  match vEff.1 with
  | .pending _ =>
      (db, { counts with pending := counts.pending + 1 }, vEff.2)
  | .verified dc ta ti ov ex mo dsrc =>
      (add_verification db p.id mo dc ta ti ov ex dsrc,
       { counts with verified := counts.verified + 1 },
       vEff.2 ++ [Eff.dbAddVerification p.id])
/-! ### Helper lemmas about the Base Scorer -/

/-- A dict slot holds a nonnegative number whenever it holds a number at
all (the price fields of real market data). -/
def PyVal.nonneg (v : PyVal) : Prop :=
  ∀ q : ℚ, v = .num q → 0 ≤ q

theorem parseTargetNum_nonneg (t : String) (v : ℚ)
    (h : parseTargetNum t = some v) : 0 ≤ v := by
  unfold parseTargetNum pyFloatOfStripped at h
  rcases hs : (stripNonNum t).splitOn '.' with _ | ⟨a, _ | ⟨b, _ | _⟩⟩ <;>
      rw [hs] at h <;> simp_all
  · rw [← h.2]; positivity
  · rw [← h.2]; positivity

theorem directionScorePair_cases (direction actual : String) :
    directionScorePair direction actual = (true, 1) ∨
    directionScorePair direction actual = (false, 3/10) ∨
    directionScorePair direction actual = (false, 0) := by
  unfold directionScorePair
  split_ifs <;> simp

theorem min_div_capped_bounds (a b : ℚ) (ha : 0 ≤ a) (hb : 0 < b) :
    0 ≤ min (a / b) 1 * (7/10) ∧ min (a / b) 1 * (7/10) ≤ 1 := by
  have h01 : 0 ≤ min (a / b) 1 := le_min (div_nonneg ha hb.le) (by norm_num)
  have h02 := min_le_right (a / b) 1
  constructor <;> nlinarith

theorem targetScoreOf_bounds (mo : MarketOutcome) (direction : String)
    (target : Option String) (hh : mo.period_high.nonneg)
    (hl : mo.period_low.nonneg) (he : mo.end_price.nonneg) :
    0 ≤ targetScoreOf mo direction target ∧
      targetScoreOf mo direction target ≤ 1 := by
  have hhv : 0 ≤ (pyGet mo.period_high 0).getD 0 := by
    cases hpv : mo.period_high with
    | absent => simp [pyGet]
    | null => simp [pyGet]
    | num q => simpa [pyGet] using hh q hpv
  have hev : ∀ e : ℚ, pyGet mo.end_price 0 = some e → 0 ≤ e := by
    intro e hec
    cases hpe : mo.end_price with
    | absent =>
      rw [hpe] at hec
      simp only [pyGet, Option.some.injEq] at hec
      rw [← hec]
    | null => rw [hpe] at hec; simp [pyGet] at hec
    | num q =>
      rw [hpe] at hec
      simp only [pyGet, Option.some.injEq] at hec
      rw [← hec]; exact he q hpe
  unfold targetScoreOf
  by_cases h1 : (truthyStr target && decide (mo.target_reached ≠ none)) = true
  · rw [if_pos h1]
    by_cases h2 : mo.target_reached = some true
    · rw [if_pos h2]; norm_num
    · rw [if_neg h2]
      rcases hp : parseTargetNum (target.getD "") with _ | tp
      · norm_num
      · have htp : 0 ≤ tp := parseTargetNum_nonneg _ _ hp
        simp only
        by_cases hb : (direction = "bullish" && truthyQ (pyGet mo.period_high 0)) = true
        · rw [if_pos hb]
          by_cases hz : tp = 0
          · rw [if_pos hz]; norm_num
          · rw [if_neg hz]
            exact min_div_capped_bounds _ tp hhv (lt_of_le_of_ne htp (Ne.symm hz))
        · rw [if_neg hb]
          by_cases hbe : direction = "bearish"
          · rw [if_pos hbe]
            cases hlc : mo.period_low with
            | absent =>
              simp only
              rcases hec : pyGet mo.end_price 0 with _ | e
              · norm_num
              · have hee := hev e hec
                simp only
                by_cases he0 : e = 0
                · rw [if_pos he0]; norm_num
                · rw [if_neg he0]
                  exact min_div_capped_bounds tp e htp
                    (lt_of_le_of_ne hee (Ne.symm he0))
            | null => norm_num
            | num q =>
              simp only
              by_cases hq0 : q = 0
              · rw [if_pos hq0]; norm_num
              · rw [if_neg hq0]
                exact min_div_capped_bounds tp q htp
                  (lt_of_le_of_ne (hl q hlc) (Ne.symm hq0))
          · rw [if_neg hbe]; norm_num
  · rw [if_neg h1]
    by_cases ht : truthyStr target = true
    · rw [if_pos ht]; norm_num
    · rw [if_neg ht]; norm_num

theorem calculate_base_score_not_verified (mo : MarketOutcome)
    (direction : String) (target : Option String)
    (hv : mo.outcome ≠ some "verified") :
    calculate_base_score mo direction target = ⟨false, 0, 0, 0, 0⟩ := by
  simp [calculate_base_score, hv]

theorem calculate_base_score_verified (mo : MarketOutcome)
    (direction : String) (target : Option String)
    (hv : mo.outcome = some "verified") :
    calculate_base_score mo direction target =
      { direction_correct :=
          (directionScorePair direction (mo.actual_direction.getD "neutral")).1
        direction_score :=
          (directionScorePair direction (mo.actual_direction.getD "neutral")).2
        target_score := targetScoreOf mo direction target
        timing_score := 4/5
        overall_score :=
          (directionScorePair direction (mo.actual_direction.getD "neutral")).2
              * weightDirection
            + targetScoreOf mo direction target * weightTarget
            + (4/5) * weightTiming } := by
  simp [calculate_base_score, hv]

/-! ### Claim C5 -/

/-- Claim C5 (amended): for every market outcome whose numeric price fields
are nonnegative, the Base Scorer's overall_score equals exactly
0.40·direction_score + 0.40·target_score + 0.20·timing_score of the three
sub-scores it returns (including the all-zero case for non-verified
outcomes), and lies in [0, 1].  The nonnegativity proviso is forced by the
counterexample: a negative `period_high` drives the bullish closeness ratio,
and with it overall_score, below 0. -/
theorem C5_overall_is_weighted_sum_and_bounded (mo : MarketOutcome)
    (direction : String) (target : Option String)
    (hh : mo.period_high.nonneg) (hl : mo.period_low.nonneg)
    (he : mo.end_price.nonneg) :
    (calculate_base_score mo direction target).overall_score =
        (calculate_base_score mo direction target).direction_score
            * weightDirection
          + (calculate_base_score mo direction target).target_score
            * weightTarget
          + (calculate_base_score mo direction target).timing_score
            * weightTiming ∧
      0 ≤ (calculate_base_score mo direction target).overall_score ∧
      (calculate_base_score mo direction target).overall_score ≤ 1 := by
  by_cases hv : mo.outcome = some "verified"
  · rw [calculate_base_score_verified mo direction target hv]
    obtain ⟨ht0, ht1⟩ := targetScoreOf_bounds mo direction target hh hl he
    refine ⟨rfl, ?_, ?_⟩ <;>
      rcases directionScorePair_cases direction
        (mo.actual_direction.getD "neutral") with h | h | h <;>
      rw [h] <;> unfold weightDirection weightTarget weightTiming <;>
      simp only <;> nlinarith [ht0, ht1]
  · rw [calculate_base_score_not_verified mo direction target hv]
    unfold weightDirection weightTarget weightTiming
    norm_num

/-- A hand-crafted verified outcome whose `period_high` is negative. -/
def moNegativeHigh : MarketOutcome :=
  { initialOutcome "X" "bullish" (some "50") "2023" with
      outcome := some "verified"
      actual_direction := some "neutral"
      target_reached := some false
      start_price := .num 100
      end_price := .num 100
      period_high := .num (-100)
      period_low := .num 90 }

/-- Claim C5, counterexample to the claim as stated: on a verified outcome
with `period_high = -100`, a bullish prediction with target "50" gets
`overall_score = -7/25 < 0`, outside [0, 1]. -/
theorem C5_counterexample :
    (calculate_base_score moNegativeHigh "bullish" (some "50")).overall_score
        = -(7/25) ∧
      ¬ (0 ≤ (calculate_base_score moNegativeHigh "bullish"
          (some "50")).overall_score) := by
  have hts : targetScoreOf moNegativeHigh "bullish" (some "50") = -(7/5) := by
    have hparse : parseTargetNum "50" = some 50 := by decide
    simp [targetScoreOf, moNegativeHigh, initialOutcome, truthyStr, pyGet,
      truthyQ, hparse, min_def]
    norm_num
  have h1 : (calculate_base_score moNegativeHigh "bullish"
      (some "50")).overall_score = -(7/25) := by
    rw [calculate_base_score_verified _ _ _ rfl]
    have had : moNegativeHigh.actual_direction.getD "neutral" = "neutral" := rfl
    rw [had, hts]
    have hd : directionScorePair "bullish" "neutral" = (false, 3/10) := by
      simp [directionScorePair]
    rw [hd]
    unfold weightDirection weightTarget weightTiming
    norm_num
  exact ⟨h1, by rw [h1]; norm_num⟩

/-- Spec Scenario A's verified outcome (start 19000, end 21500, high 21800,
low 18900). -/
def moScenarioA : MarketOutcome :=
  { initialOutcome "NIFTY 50" "bullish" (some "25000") "Dec 2023" with
      outcome := some "verified"
      actual_direction := some "bullish"
      target_reached := some false
      start_price := .num 19000
      end_price := .num 21500
      period_high := .num 21800
      period_low := .num 18900 }

/-- Witness for C5 at spec Scenario A's outcome. -/
theorem C5_overall_is_weighted_sum_and_bounded_witness :
    (calculate_base_score moScenarioA "bullish" (some "25000")).overall_score =
        (calculate_base_score moScenarioA "bullish"
            (some "25000")).direction_score * weightDirection
          + (calculate_base_score moScenarioA "bullish"
              (some "25000")).target_score * weightTarget
          + (calculate_base_score moScenarioA "bullish"
              (some "25000")).timing_score * weightTiming ∧
      0 ≤ (calculate_base_score moScenarioA "bullish"
          (some "25000")).overall_score ∧
      (calculate_base_score moScenarioA "bullish"
          (some "25000")).overall_score ≤ 1 :=
  C5_overall_is_weighted_sum_and_bounded moScenarioA "bullish" (some "25000")
    (fun q hq => by injection hq with h; rw [← h]; norm_num)
    (fun q hq => by injection hq with h; rw [← h]; norm_num)
    (fun q hq => by injection hq with h; rw [← h]; norm_num)

/-! ### Claim C9 -/

/-- Claim C9 (confirmed): on a verified outcome where the prediction is
bullish with a parseable numeric target and `target_reached` is false, a
`period_high` that is absent, `None`, or 0 leaves `target_score` at 0.0 —
the bullish closeness branch is guarded by `high_price`'s truthiness and,
unlike the bearish branch's `period_low`, has no fallback to `end_price`. -/
theorem C9_bullish_missing_high_gives_zero_target_score
    (mo : MarketOutcome) (t : String) (v : ℚ)
    (hv : mo.outcome = some "verified")
    (ht : t ≠ "")
    (hp : parseTargetNum t = some v)
    (htr : mo.target_reached = some false)
    (hh : mo.period_high = .absent ∨ mo.period_high = .null ∨
      mo.period_high = .num 0) :
    (calculate_base_score mo "bullish" (some t)).target_score = 0 := by
  rw [calculate_base_score_verified _ _ _ hv]
  simp only
  unfold targetScoreOf
  have hhP : truthyQ (pyGet mo.period_high 0) = false := by
    rcases hh with h | h | h <;> rw [h] <;> simp [pyGet, truthyQ]
  simp [truthyStr, ht, htr, hp, hhP]

/-- Witness for C9: a verified outcome with `period_high` `None`. -/
def moNullHigh : MarketOutcome :=
  { initialOutcome "NIFTY 50" "bullish" (some "25000") "2023" with
      outcome := some "verified"
      actual_direction := some "bullish"
      target_reached := some false
      start_price := .num 19000
      end_price := .num 21500
      period_high := .null
      period_low := .num 18900 }

theorem C9_bullish_missing_high_gives_zero_target_score_witness :
    (calculate_base_score moNullHigh "bullish" (some "25000")).target_score
      = 0 :=
  C9_bullish_missing_high_gives_zero_target_score moNullHigh "25000" 25000
    rfl (by decide) (by decide) rfl (Or.inr (Or.inl rfl))

/-! ### Claim C1 -/

/-- The Base Scorer's overall score is the fixed weighted sum of its three
sub-scores, on every input (shared by several results below). -/
theorem calculate_base_score_overall_eq (mo : MarketOutcome)
    (direction : String) (target : Option String) :
    (calculate_base_score mo direction target).overall_score =
      (calculate_base_score mo direction target).direction_score
          * weightDirection
        + (calculate_base_score mo direction target).target_score
          * weightTarget
        + (calculate_base_score mo direction target).timing_score
          * weightTiming := by
  by_cases hv : mo.outcome = some "verified"
  · rw [calculate_base_score_verified mo direction target hv]
  · rw [calculate_base_score_not_verified mo direction target hv]
    unfold weightDirection weightTarget weightTiming
    norm_num

/-- When the Base Scorer did not award the 0.3 partial direction credit,
its numeric direction score is exactly what the boolean
`direction_correct` recovers. -/
theorem base_direction_score_of_not_partial (mo : MarketOutcome)
    (direction : String) (target : Option String)
    (h : (calculate_base_score mo direction target).direction_score ≠ 3/10) :
    (if (calculate_base_score mo direction target).direction_correct
        then (1 : ℚ) else 0) =
      (calculate_base_score mo direction target).direction_score := by
  by_cases hv : mo.outcome = some "verified"
  · rw [calculate_base_score_verified _ _ _ hv] at h ⊢
    rcases directionScorePair_cases direction
      (mo.actual_direction.getD "neutral") with hc | hc | hc <;>
      rw [hc] at h ⊢ <;> simp_all
  · rw [calculate_base_score_not_verified _ _ _ hv]
    simp

/-- In fallback mode (key unconfigured, call failed, or unparsable output),
`verify_with_gemini` returns the Base Scorer's numbers with some
explanation text. -/
theorem verify_with_gemini_fallback (cfg : Bool) (resp : Option GeminiResp)
    (statement asset direction : String) (target : Option String)
    (timeframe : String) (predictionDate : SDate) (mo : MarketOutcome)
    (sr : Option SearchResults) (h : cfg = false ∨ resp = none) :
    ∃ msg, (verify_with_gemini cfg resp statement asset direction target
      timeframe predictionDate mo sr).1 =
        geminiFallback mo direction target msg := by
  rcases h with rfl | rfl
  · exact ⟨_, rfl⟩
  · cases cfg
    · exact ⟨_, rfl⟩
    · exact ⟨_, rfl⟩

/-- Past the pending gate, `verify_prediction`'s result is the gemini-based
scoring of the resolved outcome (with Exa context gathered exactly for
`no_data`/`error` outcomes). -/
theorem verify_prediction_not_pending (fetch : PriceOracle)
    (exa : Option SearchResults) (cfg : Bool) (resp : Option GeminiResp)
    (now : SDate) (p : PredInput) (mo : MarketOutcome) (ef : List Eff)
    (hmo : get_market_outcome fetch now p.asset p.direction p.target
      p.timeframe p.publish_date = (mo, ef))
    (hpend : mo.outcome ≠ some "pending") :
    (verify_prediction fetch exa cfg resp now p).1 =
      scoreFromGemini
        (verify_with_gemini cfg resp p.statement p.asset p.direction p.target
          p.timeframe p.publish_date mo
          (if mo.outcome = some "no_data" || mo.outcome = some "error" then exa
            else none)).1 mo := by
  unfold verify_prediction
  rw [hmo]
  simp only [if_neg hpend]
  by_cases hC : (mo.outcome = some "no_data" || mo.outcome = some "error")
      = true <;>
    simp [hC]

/-- Claim C1 (amended): in fallback mode (the semantic verifier is
unconfigured, the model call fails, or its response cannot be parsed as
JSON), and when the Base Scorer did not award the 0.3 partial direction
credit (which the boolean `direction_correct` of the fallback dictionary
cannot carry), the pipeline's final scores equal the Base Scorer's:
`direction_correct`, `target_accuracy` and `timing_accuracy` exactly, and
`overall_score` up to the pipeline's rounding to three decimals.  The
partial-credit proviso and the rounding are forced by the counterexample
below. -/
theorem C1_fallback_scores_match_base_scores (fetch : PriceOracle)
    (exa : Option SearchResults) (cfg : Bool) (resp : Option GeminiResp)
    (now : SDate) (p : PredInput) (mo : MarketOutcome) (ef : List Eff)
    (hfb : cfg = false ∨ resp = none)
    (hmo : get_market_outcome fetch now p.asset p.direction p.target
      p.timeframe p.publish_date = (mo, ef))
    (hpend : mo.outcome ≠ some "pending")
    (hpart : (calculate_base_score mo p.direction p.target).direction_score
      ≠ 3/10) :
    ((verify_prediction fetch exa cfg resp now p).1.directionCorrect =
        some (calculate_base_score mo p.direction p.target).direction_correct)
      ∧ ((verify_prediction fetch exa cfg resp now p).1.targetAccuracy =
        some (calculate_base_score mo p.direction p.target).target_score)
      ∧ ((verify_prediction fetch exa cfg resp now p).1.timingAccuracy =
        some (calculate_base_score mo p.direction p.target).timing_score)
      ∧ ((verify_prediction fetch exa cfg resp now p).1.overallScore =
        some (roundTo 3
          (calculate_base_score mo p.direction p.target).overall_score)) := by
  rw [verify_prediction_not_pending fetch exa cfg resp now p mo ef hmo hpend]
  obtain ⟨msg, hg⟩ := verify_with_gemini_fallback cfg resp p.statement p.asset
    p.direction p.target p.timeframe p.publish_date mo
    (if mo.outcome = some "no_data" || mo.outcome = some "error" then exa
      else none) hfb
  rw [hg]
  unfold scoreFromGemini geminiFallback
  simp only [VerifyResult.directionCorrect, VerifyResult.targetAccuracy,
    VerifyResult.timingAccuracy, VerifyResult.overallScore, Option.getD]
  refine ⟨trivial, trivial, trivial, ?_⟩
  simp only [Option.some.injEq]
  rw [calculate_base_score_overall_eq mo p.direction p.target]
  have hds := base_direction_score_of_not_partial mo p.direction p.target hpart
  rcases hdc : (calculate_base_score mo p.direction p.target).direction_correct
  · rw [hdc] at hds
    simp only [Bool.false_eq_true, if_false] at hds
    simp only [← hds]
  · rw [hdc] at hds
    simp only [if_true] at hds
    simp only [← hds]

/-- A price oracle returning a flat series (start 100, end 104: +4%,
neutral). -/
def fetchNeutral : PriceOracle := fun _ _ _ =>
  some ⟨some 100, some 104, some 106, some 99⟩

/-- A bullish prediction with no target over the 2023 calendar year. -/
def predBullish2023 : PredInput :=
  ⟨1, "Nifty will rally", "NIFTY 50", "bullish", none, "2023", ⟨2023, 1, 15⟩⟩

/-- The outcome `fetchNeutral` resolves for `predBullish2023`. -/
def moNeutral2023 : MarketOutcome :=
  { initialOutcome "NIFTY 50" "bullish" none "2023" with
      outcome := some "verified"
      data_source := "nselib"
      start_price := .num 100
      end_price := .num 104
      period_high := .num 106
      period_low := .num 99
      actual_price_change := some 4
      actual_direction := some "neutral"
      target_reached := none }

theorem get_market_outcome_neutral2023 :
    get_market_outcome fetchNeutral ⟨2024, 6, 1⟩ "NIFTY 50" "bullish" none
        "2023" ⟨2023, 1, 15⟩ =
      (moNeutral2023, [Eff.fetchPrices "NIFTY 50" ⟨2023, 1, 1⟩ ⟨2023, 12, 31⟩]) := by
  have hparse : parse_timeframe "2023" ⟨2023, 1, 15⟩ =
      some (⟨2023, 1, 1⟩, ⟨2023, 12, 31⟩) := by decide
  have hnow : ¬ (toOrdinal ⟨2024, 6, 1⟩ < toOrdinal ⟨2023, 12, 31⟩) := by decide
  have hchange : ((104 : ℚ) - 100) / 100 * 100 = 4 := by norm_num
  have hdir : ¬ ((5 : ℚ) < 4) ∧ ¬ ((4 : ℚ) < -5) := by norm_num
  have hround : roundTo 2 (4 : ℚ) = 4 := by
    have : (4 : ℚ) * 10 ^ 2 = 400 := by norm_num
    rw [roundTo, this]
    rw [show roundHalfEven (400 : ℚ) = 400 by
      rw [roundHalfEven]; norm_num]
    norm_num
  unfold get_market_outcome fetchNeutral
  rw [hparse]
  simp only [hnow, if_false, truthyQ, truthyStr]
  norm_num [hchange, hdir.1, hdir.2, hround, moNeutral2023]

/-- Claim C1, counterexample to the claim as stated: with the verifier
unconfigured, a bullish call on a flat (+4%) market without a target gets
pipeline overall_score 0.36, while the Base Scorer's overall_score for the
same outcome is 0.48 — the 0.3 partial direction credit does not survive
the boolean `direction_correct` of the fallback dictionary. -/
theorem C1_counterexample :
    (verify_prediction fetchNeutral none false none ⟨2024, 6, 1⟩
        predBullish2023).1.overallScore = some (9/25) ∧
      (calculate_base_score moNeutral2023 "bullish" none).overall_score =
        12/25 ∧
      (9/25 : ℚ) ≠ 12/25 := by
  have hbase : calculate_base_score moNeutral2023 "bullish" none =
      ⟨false, 3/10, 1/2, 4/5, 12/25⟩ := by
    rw [calculate_base_score_verified _ _ _ rfl]
    have had : moNeutral2023.actual_direction.getD "neutral" = "neutral" := rfl
    rw [had]
    have hd : directionScorePair "bullish" "neutral" = (false, 3/10) := by
      simp [directionScorePair]
    have ht : targetScoreOf moNeutral2023 "bullish" none = 1/2 := by
      simp [targetScoreOf, truthyStr]
    rw [hd, ht]
    unfold weightDirection weightTarget weightTiming
    norm_num
  refine ⟨?_, by rw [hbase], by norm_num⟩
  rw [verify_prediction_not_pending fetchNeutral none false none ⟨2024, 6, 1⟩
    predBullish2023 moNeutral2023 _ get_market_outcome_neutral2023
    (by simp [moNeutral2023])]
  have hvg : ∀ (st a d : String) (t : Option String) (tf : String)
      (pd : SDate) (sr : Option SearchResults),
      (verify_with_gemini false none st a d t tf pd moNeutral2023 sr).1 =
        geminiFallback moNeutral2023 d t
          "Verified using market data only (no AI analysis)" :=
    fun _ _ _ _ _ _ _ => rfl
  rw [hvg]
  simp only [predBullish2023]
  unfold scoreFromGemini geminiFallback
  rw [hbase]
  simp only [VerifyResult.overallScore, Option.getD, Option.some.injEq]
  have : ((0 : ℚ) * weightDirection + (1/2) * weightTarget
      + (4/5) * weightTiming) = 9/25 := by
    unfold weightDirection weightTarget weightTiming
    norm_num
  rw [this]
  rw [roundTo]
  rw [show (9 : ℚ)/25 * 10 ^ 3 = 360 by norm_num]
  rw [show roundHalfEven (360 : ℚ) = 360 by rw [roundHalfEven]; norm_num]
  norm_num

/-- A price oracle returning a +10% series (start 100, end 110, high 115,
low 95). -/
def fetchBull : PriceOracle := fun _ _ _ =>
  some ⟨some 100, some 110, some 115, some 95⟩

/-- A bullish prediction with target "115" over the 2023 calendar year. -/
def predBull115 : PredInput :=
  ⟨2, "Nifty to 115", "NIFTY 50", "bullish", some "115", "2023", ⟨2023, 1, 15⟩⟩

/-- The outcome `fetchBull` resolves for `predBull115`. -/
def moBull115 : MarketOutcome :=
  { initialOutcome "NIFTY 50" "bullish" (some "115") "2023" with
      outcome := some "verified"
      data_source := "nselib"
      start_price := .num 100
      end_price := .num 110
      period_high := .num 115
      period_low := .num 95
      actual_price_change := some 10
      actual_direction := some "bullish"
      target_reached := some true }

theorem get_market_outcome_bull115 :
    get_market_outcome fetchBull ⟨2024, 6, 1⟩ "NIFTY 50" "bullish"
        (some "115") "2023" ⟨2023, 1, 15⟩ =
      (moBull115, [Eff.fetchPrices "NIFTY 50" ⟨2023, 1, 1⟩ ⟨2023, 12, 31⟩]) := by
  have hparse : parse_timeframe "2023" ⟨2023, 1, 15⟩ =
      some (⟨2023, 1, 1⟩, ⟨2023, 12, 31⟩) := by decide
  have hnow : ¬ (toOrdinal ⟨2024, 6, 1⟩ < toOrdinal ⟨2023, 12, 31⟩) := by decide
  have hchange : ((110 : ℚ) - 100) / 100 * 100 = 10 := by norm_num
  have hd1 : (5 : ℚ) < 10 := by norm_num
  have htp : parseTargetNum "115" = some 115 := by decide
  have hround : roundTo 2 (10 : ℚ) = 10 := by
    have h1 : (10 : ℚ) * 10 ^ 2 = 1000 := by norm_num
    rw [roundTo, h1]
    rw [show roundHalfEven (1000 : ℚ) = 1000 by rw [roundHalfEven]; norm_num]
    norm_num
  unfold get_market_outcome fetchBull
  rw [hparse]
  simp only [hnow, if_false, truthyQ, truthyStr]
  norm_num [hchange, hd1, htp, hround, moBull115]
  all_goals intro h
  all_goals exact absurd h (by decide)

theorem base_score_bull115 :
    calculate_base_score moBull115 "bullish" (some "115") =
      ⟨true, 1, 1, 4/5, 24/25⟩ := by
  rw [calculate_base_score_verified _ _ _ rfl]
  have had : moBull115.actual_direction.getD "neutral" = "bullish" := rfl
  rw [had]
  have hd : directionScorePair "bullish" "bullish" = (true, 1) := by
    simp [directionScorePair]
  have ht : targetScoreOf moBull115 "bullish" (some "115") = 1 := by
    simp [targetScoreOf, truthyStr, moBull115]
  rw [hd, ht]
  unfold weightDirection weightTarget weightTiming
  norm_num

/-- Witness for C1 at `predBull115` with the verifier unconfigured. -/
theorem C1_fallback_scores_match_base_scores_witness :
    ((verify_prediction fetchBull none false none ⟨2024, 6, 1⟩
        predBull115).1.directionCorrect =
      some (calculate_base_score moBull115 "bullish"
        (some "115")).direction_correct)
    ∧ ((verify_prediction fetchBull none false none ⟨2024, 6, 1⟩
        predBull115).1.targetAccuracy =
      some (calculate_base_score moBull115 "bullish"
        (some "115")).target_score)
    ∧ ((verify_prediction fetchBull none false none ⟨2024, 6, 1⟩
        predBull115).1.timingAccuracy =
      some (calculate_base_score moBull115 "bullish"
        (some "115")).timing_score)
    ∧ ((verify_prediction fetchBull none false none ⟨2024, 6, 1⟩
        predBull115).1.overallScore =
      some (roundTo 3 (calculate_base_score moBull115 "bullish"
        (some "115")).overall_score)) :=
  C1_fallback_scores_match_base_scores fetchBull none false none ⟨2024, 6, 1⟩
    predBull115 moBull115 [Eff.fetchPrices "NIFTY 50" ⟨2023, 1, 1⟩ ⟨2023, 12, 31⟩]
    (Or.inl rfl) get_market_outcome_bull115 (by decide)
    (by simp only [predBull115]; rw [base_score_bull115]; norm_num)

/-! ### Claims C3 and C4 -/

/-- Claim C3 (amended): for every timeframe whose lowercased, stripped text
contains a standalone (word-boundaried) year 2020-2039 — the only years the
resolver's `\b(20[2-3]\d)\b` pattern recognises — no month-name-plus-year
match, and no "end" substring, the resolved window is exactly Jan 1 -
Dec 31 of that year, for every reference date.  The year-range restriction
is forced by the counterexample: "by 2045" contains a 4-digit year but
falls through to the 180-day default window. -/
theorem C3_bare_year_full_calendar_year (timeframe : String) (ref : SDate)
    (y : Nat)
    (hmy : searchMonthYear (pyLowerStrip timeframe) = none)
    (hy : searchYearToken (pyLowerStrip timeframe) = some y)
    (hend : hasSubstrL "end".toList (pyLowerStrip timeframe) = false) :
    parse_timeframe timeframe ref = some (⟨y, 1, 1⟩, ⟨y, 12, 31⟩) := by
  unfold parse_timeframe parseTimeframeCore
  rw [hmy, hy, hend]
  simp

/-- Witness for C3 on "by 2030". -/
theorem C3_bare_year_full_calendar_year_witness :
    parse_timeframe "by 2030" ⟨2023, 6, 1⟩ =
      some (⟨2030, 1, 1⟩, ⟨2030, 12, 31⟩) :=
  C3_bare_year_full_calendar_year "by 2030" ⟨2023, 6, 1⟩ 2030
    (by decide) (by decide) (by decide)

/-- Claim C3, counterexample to the claim as stated: "by 2045" contains the
4-digit year 2045, no month name and no "end", yet the resolver returns the
default 180-day window from the reference date, not Jan 1 - Dec 31 of 2045,
because the year pattern `\b(20[2-3]\d)\b` only matches 2020-2039. -/
theorem C3_counterexample :
    (hasSubstrL "2045".toList (pyLowerStrip "by 2045") = true) ∧
      (monthTable.all
        (fun ab => !hasSubstrL ab.1 (pyLowerStrip "by 2045")) = true) ∧
      (hasSubstrL "end".toList (pyLowerStrip "by 2045") = false) ∧
      parse_timeframe "by 2045" ⟨2023, 6, 1⟩ =
        some (⟨2023, 6, 1⟩, ⟨2023, 11, 28⟩) ∧
      ¬ (parse_timeframe "by 2045" ⟨2023, 6, 1⟩ =
        some (⟨2045, 1, 1⟩, ⟨2045, 12, 31⟩)) := by
  refine ⟨by decide, by decide, by decide, by decide, by decide⟩

/-- Claim C4 (amended): for every timeframe whose lowercased, stripped text
contains the substring "end" and a standalone year 2020-2039, and which the
month-name-plus-year pattern does not match (that pattern has priority),
the resolved window is Oct 1 - Dec 31 (Q4) of that year, for every
reference date.  The no-month-match proviso is forced by the
counterexample: "end of december 2025" contains "end" and a year, but
resolves to the December window. -/
theorem C4_end_year_q4 (timeframe : String) (ref : SDate) (y : Nat)
    (hmy : searchMonthYear (pyLowerStrip timeframe) = none)
    (hy : searchYearToken (pyLowerStrip timeframe) = some y)
    (hend : hasSubstrL "end".toList (pyLowerStrip timeframe) = true) :
    parse_timeframe timeframe ref = some (⟨y, 10, 1⟩, ⟨y, 12, 31⟩) := by
  unfold parse_timeframe parseTimeframeCore
  rw [hmy, hy, hend]
  simp

/-- Witness for C4 on "end of 2025". -/
theorem C4_end_year_q4_witness :
    parse_timeframe "end of 2025" ⟨2023, 6, 1⟩ =
      some (⟨2025, 10, 1⟩, ⟨2025, 12, 31⟩) :=
  C4_end_year_q4 "end of 2025" ⟨2023, 6, 1⟩ 2025
    (by decide) (by decide) (by decide)

/-- Claim C4, counterexample to the claim as stated: "end of december 2025"
contains the word "end" together with the year 2025, yet the resolver
returns the December 2025 month window (Dec 1 - Dec 31), not Q4
(Oct 1 - Dec 31), because the month-name-plus-year pattern is tried first. -/
theorem C4_counterexample :
    (hasSubstrL "end".toList (pyLowerStrip "end of december 2025") = true) ∧
      (hasSubstrL "2025".toList (pyLowerStrip "end of december 2025")
        = true) ∧
      parse_timeframe "end of december 2025" ⟨2023, 6, 1⟩ =
        some (⟨2025, 12, 1⟩, ⟨2025, 12, 31⟩) ∧
      ¬ (parse_timeframe "end of december 2025" ⟨2023, 6, 1⟩ =
        some (⟨2025, 10, 1⟩, ⟨2025, 12, 31⟩)) := by
  refine ⟨by decide, by decide, by decide, by decide⟩

/-! ### Claim C2 -/

/-- The outcome `fetchBull` resolves for a bullish prediction whose target
text "abc" strips to the empty string: the resolver's own parse attempt
raises `ValueError` and its handler leaves `target_reached = None`. -/
def moUnparsableTarget : MarketOutcome :=
  { initialOutcome "NIFTY 50" "bullish" (some "abc") "2023" with
      outcome := some "verified"
      data_source := "nselib"
      start_price := .num 100
      end_price := .num 110
      period_high := .num 115
      period_low := .num 95
      actual_price_change := some 10
      actual_direction := some "bullish"
      target_reached := none }

/-- Claim C2 evaluated at the failing input: a verified outcome whose
target "abc" cannot be parsed gets Base Scorer `target_score` 0.0, not the
0.5 the spec (and the scorer's own dead `except` handler) promises — the
unparsable target forces `target_reached = None` in the resolver, and
`calculate_base_score` then skips the whole target branch, never reaching
its `except: target_score = 0.5` code. -/
theorem C2_unparsable_target_scored_zero :
    parseTargetNum "abc" = none ∧
      get_market_outcome fetchBull ⟨2024, 6, 1⟩ "NIFTY 50" "bullish"
          (some "abc") "2023" ⟨2023, 1, 15⟩ =
        (moUnparsableTarget,
          [Eff.fetchPrices "NIFTY 50" ⟨2023, 1, 1⟩ ⟨2023, 12, 31⟩]) ∧
      (calculate_base_score moUnparsableTarget "bullish"
          (some "abc")).target_score = 0 ∧
      ¬ ((calculate_base_score moUnparsableTarget "bullish"
          (some "abc")).target_score = 1/2) := by
  have hmo : get_market_outcome fetchBull ⟨2024, 6, 1⟩ "NIFTY 50" "bullish"
      (some "abc") "2023" ⟨2023, 1, 15⟩ =
      (moUnparsableTarget,
        [Eff.fetchPrices "NIFTY 50" ⟨2023, 1, 1⟩ ⟨2023, 12, 31⟩]) := by
    have hparse : parse_timeframe "2023" ⟨2023, 1, 15⟩ =
        some (⟨2023, 1, 1⟩, ⟨2023, 12, 31⟩) := by decide
    have hnow : ¬ (toOrdinal ⟨2024, 6, 1⟩ < toOrdinal ⟨2023, 12, 31⟩) := by
      decide
    have hchange : ((110 : ℚ) - 100) / 100 * 100 = 10 := by norm_num
    have hd1 : (5 : ℚ) < 10 := by norm_num
    have htp : parseTargetNum "abc" = none := by decide
    have hround : roundTo 2 (10 : ℚ) = 10 := by
      have h1 : (10 : ℚ) * 10 ^ 2 = 1000 := by norm_num
      rw [roundTo, h1]
      rw [show roundHalfEven (1000 : ℚ) = 1000 by rw [roundHalfEven]; norm_num]
      norm_num
    unfold get_market_outcome fetchBull
    rw [hparse]
    simp only [hnow, if_false, truthyQ, truthyStr]
    norm_num [hchange, hd1, htp, hround, moUnparsableTarget]
    all_goals intro h
    all_goals exact absurd h (by decide)
  have hts : (calculate_base_score moUnparsableTarget "bullish"
      (some "abc")).target_score = 0 := by
    rw [calculate_base_score_verified _ _ _ rfl]
    simp [targetScoreOf, truthyStr, moUnparsableTarget, initialOutcome]
  exact ⟨by decide, hmo, hts, by rw [hts]; norm_num⟩

/-! ### Claim C6 -/

/-- Claim C6 (confirmed): when the resolved verification window ends
strictly after the current time, the Outcome Resolver returns
outcome "pending" with an empty effect trace (no price fetch), the
pipeline returns the pending result with an empty trace (no Exa search, no
model call), and the batch loop body leaves the database untouched (no
Verification persisted), merely counting the prediction as pending. -/
theorem C6_pending_no_fetch_no_model_no_persistence (fetch : PriceOracle)
    (exa : Option SearchResults) (cfg : Bool) (resp : Option GeminiResp)
    (now : SDate) (p : PredInput) (db : DBState) (counts : BatchCounts)
    (s e : SDate)
    (hparse : parse_timeframe p.timeframe p.publish_date = some (s, e))
    (hfut : toOrdinal now < toOrdinal e) :
    ((get_market_outcome fetch now p.asset p.direction p.target p.timeframe
        p.publish_date).1.outcome = some "pending")
      ∧ ((get_market_outcome fetch now p.asset p.direction p.target
        p.timeframe p.publish_date).2 = [])
      ∧ ((verify_prediction fetch exa cfg resp now p).1.status = "pending")
      ∧ ((verify_prediction fetch exa cfg resp now p).2 = [])
      ∧ (processOne fetch exa cfg resp now p db counts =
        (db, { counts with pending := counts.pending + 1 }, [])) := by
  have hmo : get_market_outcome fetch now p.asset p.direction p.target
      p.timeframe p.publish_date =
      ({ initialOutcome p.asset p.direction p.target p.timeframe with
           outcome := some "pending",
           note := some "Prediction timeframe has not completed yet" }, []) := by
    unfold get_market_outcome
    rw [hparse]
    simp only [hfut, if_true]
  have hvp : verify_prediction fetch exa cfg resp now p =
      (.pending "Prediction timeframe has not completed yet", []) := by
    unfold verify_prediction
    rw [hmo]
    simp
  refine ⟨by rw [hmo], by rw [hmo], by rw [hvp]; rfl, by rw [hvp], ?_⟩
  unfold processOne
  rw [hvp]

/-- Witness for C6: spec Scenario C (window ends 2026-12-31, "now" is
2025-01-01). -/
def predPending2026 : PredInput :=
  ⟨3, "Nifty in 2026", "NIFTY 50", "bullish", none, "2026", ⟨2025, 6, 15⟩⟩

theorem C6_pending_no_fetch_no_model_no_persistence_witness :
    ((get_market_outcome fetchBull ⟨2025, 1, 1⟩ predPending2026.asset
        predPending2026.direction predPending2026.target
        predPending2026.timeframe predPending2026.publish_date).1.outcome =
      some "pending")
      ∧ ((get_market_outcome fetchBull ⟨2025, 1, 1⟩ predPending2026.asset
        predPending2026.direction predPending2026.target
        predPending2026.timeframe predPending2026.publish_date).2 = [])
      ∧ ((verify_prediction fetchBull none true none ⟨2025, 1, 1⟩
        predPending2026).1.status = "pending")
      ∧ ((verify_prediction fetchBull none true none ⟨2025, 1, 1⟩
        predPending2026).2 = [])
      ∧ (processOne fetchBull none true none ⟨2025, 1, 1⟩ predPending2026
          ⟨[], [], [], [], 1⟩ ⟨0, 0, 0⟩ =
        (⟨[], [], [], [], 1⟩, ⟨0, 1, 0⟩, [])) :=
  C6_pending_no_fetch_no_model_no_persistence fetchBull none true none
    ⟨2025, 1, 1⟩ predPending2026 ⟨[], [], [], [], 1⟩ ⟨0, 0, 0⟩
    ⟨2026, 1, 1⟩ ⟨2026, 12, 31⟩ (by decide) (by decide)

/-! ### Claim C10 -/

/-- Claim C10 (confirmed): when the model call succeeds and its response
parses as JSON (`resp = some g`), the pipeline scores from that dictionary
alone — an absent `direction_correct` counts as false (contributing 0.0),
and absent `target_accuracy` / `timing_accuracy` each default to 0.5 — and
never substitutes Base Scorer sub-scores for individually missing fields. -/
theorem C10_parsed_response_fields_defaulted_not_substituted
    (fetch : PriceOracle) (exa : Option SearchResults) (now : SDate)
    (p : PredInput) (mo : MarketOutcome) (ef : List Eff) (g : GeminiResp)
    (hmo : get_market_outcome fetch now p.asset p.direction p.target
      p.timeframe p.publish_date = (mo, ef))
    (hpend : mo.outcome ≠ some "pending") :
    ((verify_prediction fetch exa true (some g) now p).1 =
        scoreFromGemini g mo)
      ∧ ((scoreFromGemini g mo).directionCorrect =
        some (g.direction_correct.getD false))
      ∧ ((scoreFromGemini g mo).targetAccuracy =
        some (g.target_accuracy.getD (1/2)))
      ∧ ((scoreFromGemini g mo).timingAccuracy =
        some (g.timing_accuracy.getD (1/2)))
      ∧ ((scoreFromGemini g mo).overallScore =
        some (roundTo 3
          ((match g.direction_correct with
            | some true => (1 : ℚ)
            | _ => 0) * weightDirection
          + g.target_accuracy.getD (1/2) * weightTarget
          + g.timing_accuracy.getD (1/2) * weightTiming))) := by
  refine ⟨?_, rfl, rfl, rfl, rfl⟩
  rw [verify_prediction_not_pending fetch exa true (some g) now p mo ef hmo
    hpend]
  rfl

/-- Witness for C10: a response with all fields missing scores
(false, 0.5, 0.5) and overall 0.3. -/
theorem C10_parsed_response_fields_defaulted_not_substituted_witness :
    ((verify_prediction fetchBull none true (some ⟨none, none, none, none⟩)
        ⟨2024, 6, 1⟩ predBull115).1 =
        scoreFromGemini ⟨none, none, none, none⟩ moBull115)
      ∧ ((scoreFromGemini ⟨none, none, none, none⟩
          moBull115).directionCorrect = some false)
      ∧ ((scoreFromGemini ⟨none, none, none, none⟩
          moBull115).targetAccuracy = some (1/2))
      ∧ ((scoreFromGemini ⟨none, none, none, none⟩
          moBull115).timingAccuracy = some (1/2))
      ∧ ((scoreFromGemini ⟨none, none, none, none⟩
          moBull115).overallScore =
        some (roundTo 3 ((0 : ℚ) * weightDirection
          + (1/2) * weightTarget + (1/2) * weightTiming))) :=
  C10_parsed_response_fields_defaulted_not_substituted fetchBull none
    ⟨2024, 6, 1⟩ predBull115 moBull115
    [Eff.fetchPrices "NIFTY 50" ⟨2023, 1, 1⟩ ⟨2023, 12, 31⟩]
    ⟨none, none, none, none⟩ get_market_outcome_bull115 (by decide)

/-! ### Claim C8 -/

theorem add_verification_verifications (s : DBState) (pid : Nat)
    (ao : MarketOutcome) (dc : Bool) (ta ti ov : ℚ) (ex ds : String) :
    (add_verification s pid ao dc ta ti ov ex ds).verifications =
      s.verifications.filter (fun r => r.prediction_id ≠ pid) ++
        [⟨s.nextVerifId, pid, ao, dc, ta, ti, ov, ex, ds⟩] := rfl

/-- Claim C8 (confirmed): `add_verification` is an upsert keyed by
prediction id — on any database whose verification rows have pairwise
distinct prediction ids, re-running it preserves that invariant and leaves
exactly one verification record for the given prediction, so any sequence
of pipeline runs keeps at most one record per prediction. -/
theorem C8_upsert_at_most_one_verification (s : DBState) (pid : Nat)
    (ao : MarketOutcome) (dc : Bool) (ta ti ov : ℚ) (ex ds : String)
    (hnd : ((s.verifications.map (fun r => r.prediction_id)).Nodup)) :
    (((add_verification s pid ao dc ta ti ov ex ds).verifications.map
        (fun r => r.prediction_id)).Nodup)
      ∧ (((add_verification s pid ao dc ta ti ov ex ds).verifications.filter
        (fun r => r.prediction_id = pid)).length = 1) := by
  rw [add_verification_verifications]
  constructor
  · rw [List.map_append, List.nodup_append]
    refine ⟨?_, by simp, ?_⟩
    · exact hnd.sublist (List.Sublist.map _ (List.filter_sublist _))
    · intro a ha hb
      simp only [List.map_cons, List.map_nil, List.mem_singleton] at hb
      obtain ⟨r, hr, hra⟩ := List.mem_map.mp ha
      have := List.of_mem_filter hr
      simp only [decide_not, Bool.not_eq_true', decide_eq_false_iff_not] at this
      exact this (hra.trans hb)
  · rw [List.filter_append]
    have h1 : (s.verifications.filter (fun r => r.prediction_id ≠ pid)).filter
        (fun r => r.prediction_id = pid) = [] := by
      rw [List.filter_eq_nil]
      intro r hr
      have := List.of_mem_filter hr
      simp only [decide_not, Bool.not_eq_true', decide_eq_false_iff_not] at this
      simp [this]
    rw [h1]
    simp

/-- A database holding one verification row for prediction 100. -/
def dbOneVerification : DBState :=
  ⟨[⟨1, 0, some 0⟩], [⟨10, 1⟩], [⟨100, 10, true⟩],
   [⟨0, 100, moBull115, true, 1, 1, 1, "ok", "nselib"⟩], 1⟩

/-- Witness for C8: re-verifying prediction 100 on `dbOneVerification`
leaves exactly one record for it. -/
theorem C8_upsert_at_most_one_verification_witness :
    (((add_verification dbOneVerification 100 moBull115 true 1 1 1 "ok2"
        "nselib").verifications.map (fun r => r.prediction_id)).Nodup)
      ∧ (((add_verification dbOneVerification 100 moBull115 true 1 1 1 "ok2"
        "nselib").verifications.filter
          (fun r => r.prediction_id = 100)).length = 1) :=
  C8_upsert_at_most_one_verification dbOneVerification 100 moBull115 true
    1 1 1 "ok2" "nselib" (by decide)

/-! ### Claim C7 -/

/-- Claim C7 (amended): after a recomputation pass, every creator's row is
updated so that a creator with zero verified predictions has accuracy_score
0.0 — not SQL NULL: the `AVG` over the empty join is `NULL`, but
`recalculate_creator_scores` coerces it with `or 0.0` and writes 0.0, which
is also the column default — and a creator with at least one verified
prediction has accuracy_score equal to the average of its verified
predictions' overall_scores. -/
theorem C7_recalc_zero_default_or_average (s : DBState) (c : CreatorRow)
    (hc : c ∈ s.creators) :
    recalcCreatorRow s c ∈ (recalculate_creator_scores s).creators ∧
      (recalcCreatorRow s c).accuracy_score =
        some (if (creatorVerifications s c.id).isEmpty then 0
          else ((creatorVerifications s c.id).map
              (fun r => r.overall_score)).sum /
            (creatorVerifications s c.id).length) := by
  constructor
  · exact List.mem_map_of_mem _ hc
  · unfold recalcCreatorRow
    by_cases hr : (creatorVerifications s c.id).isEmpty
    · simp [hr, pyOrQ]
    · simp only [hr, if_false]
      rcases eq_or_ne (((creatorVerifications s c.id).map
          (fun r => r.overall_score)).sum /
            ((creatorVerifications s c.id).length : ℚ)) 0 with h0 | h0
      · simp [pyOrQ, h0]
      · simp [pyOrQ, h0]

/-- Claim C7, counterexample to the claim as stated: recomputing on a
database whose sole creator has no verified predictions writes
accuracy_score 0.0, not NULL/undefined. -/
theorem C7_counterexample :
    (recalculate_creator_scores ⟨[⟨1, 5, some 1⟩], [], [], [], 1⟩).creators =
        [⟨1, 0, some 0⟩] ∧
      ((recalculate_creator_scores
          ⟨[⟨1, 5, some 1⟩], [], [], [], 1⟩).creators.map
        (fun c => c.accuracy_score)) ≠ [none] := by
  constructor <;> decide

/-- Witness for C7 on `dbOneVerification` (creator 1 owns the single
verified prediction 100). -/
theorem C7_recalc_zero_default_or_average_witness :
    recalcCreatorRow dbOneVerification ⟨1, 0, some 0⟩ ∈
        (recalculate_creator_scores dbOneVerification).creators ∧
      (recalcCreatorRow dbOneVerification ⟨1, 0, some 0⟩).accuracy_score =
        some (if (creatorVerifications dbOneVerification 1).isEmpty then 0
          else ((creatorVerifications dbOneVerification 1).map
              (fun r => r.overall_score)).sum /
            (creatorVerifications dbOneVerification 1).length) :=
  C7_recalc_zero_default_or_average dbOneVerification ⟨1, 0, some 0⟩
    (by decide)
